import Mathlib

/-!
Shallow embedding of `src/app/api/extract-document/route.ts` (a Next.js API
route plus its client page).  Upstream JSON payloads are modelled by the
inductive `JsonVal`; JavaScript property access, truthiness, `||`-fallbacks
and string coercion are modelled explicitly.  A thrown `TypeError`
(property access on `null`/`undefined`) is modelled by `Except Unit`;
the route's `try`/`catch` wrappers become the `.error` branches of the
top-level functions.  JavaScript numbers are modelled by `ℚ` (no claim
exercises float rounding); the decimal rendering of non-integer numbers
is abstracted in `jsNumRepr`.
-/

/-- A JSON value as delivered by `landingAIResponse.json()`. -/
inductive JsonVal where
  | null
  | bool (b : Bool)
  | num (q : ℚ)
  | str (s : String)
  | arr (xs : List JsonVal)
  | obj (fields : List (String × JsonVal))

/-- First binding for a key in an object's field list (JSON object keys are
unique, so first-match lookup is the JS semantics). -/
def lookupField : List (String × JsonVal) → String → Option JsonVal
  | [], _ => none
  | (k, v) :: rest, key => if k = key then some v else lookupField rest key

/-- Property read `v.k` on a non-null value; `none` models `undefined`.
Arrays and strings expose `length` as in JS. -/
def jsField : JsonVal → String → Option JsonVal
  | .obj fs, k => lookupField fs k
  | .arr xs, k => if k = "length" then some (.num (xs.length : ℚ)) else none
  | .str s, k => if k = "length" then some (.num (s.length : ℚ)) else none
  | _, _ => none

/-- Property read `v.k`; accessing a property of `null`/`undefined` throws a
TypeError, modelled by `.error ()`. -/
def jsGet (v : JsonVal) (k : String) : Except Unit (Option JsonVal) :=
  match v with
  | .null => .error ()
  | w => .ok (jsField w k)

/-- Property read on a possibly-`undefined` value (`none` = `undefined`). -/
def jsGetO (o : Option JsonVal) (k : String) : Except Unit (Option JsonVal) :=
  match o with
  | none => .error ()
  | some v => jsGet v k

/-- JS truthiness of a possibly-`undefined` value. -/
def jsTruthy : Option JsonVal → Bool
  | none => false
  | some .null => false
  | some (.bool b) => b
  | some (.num q) => decide (q ≠ 0)
  | some (.str s) => decide (s ≠ "")
  | some (.arr _) => true
  | some (.obj _) => true

/-- The JS fallback `a || b` (value of `a` when truthy, else `b`). -/
def jsOrD (a : Option JsonVal) (b : JsonVal) : JsonVal :=
  if jsTruthy a then a.getD .null else b

/-- The comparison `len > 0` as used on a `length` read.  Values of
non-number type never arise from a genuine `length` here; JS numeric
coercion of such values is abstracted as `false`. -/
def jsNumPos : Option JsonVal → Bool
  | some (.num q) => decide (0 < q)
  | _ => false

/-- Array indexing `v[i]`; throws on `null`/`undefined`, indexes strings by
character, treats `obj[i]` as the lookup of the decimal key. -/
def jsIndex (o : Option JsonVal) (i : Nat) : Except Unit (Option JsonVal) :=
  match o with
  | none => .error ()
  | some .null => .error ()
  | some (.arr xs) => .ok (xs.get? i)
  | some (.str s) => .ok ((s.toList.get? i).map fun c => .str (String.mk [c]))
  | some (.obj fs) => .ok (lookupField fs (toString i))
  | some _ => .ok none

/-- Is the (possibly-`undefined`) value an array (`Array.isArray`)? -/
def isArrayO : Option JsonVal → Bool
  | some (.arr _) => true
  | _ => false

/-- Elements of a value known to be an array. -/
def arrElemsO : Option JsonVal → List JsonVal
  | some (.arr xs) => xs
  | _ => []

/-- Decimal rendering of a JS number.  Integers render as in JS; the float
formatting of non-integers is abstracted by `toString` on `ℚ`. -/
def jsNumRepr (q : ℚ) : String :=
  if q.den = 1 then (if q.num < 0 then toString q.num else toString q.num.toNat)
  else toString q

mutual

/-- Element rendering of `Array.prototype.join`: `null`/`undefined` render
as the empty string, nested arrays join with `","`. -/
def jsJoinElem : JsonVal → String
  | .null => ""
  | .bool b => toString b
  | .num q => jsNumRepr q
  | .str s => s
  | .arr xs => String.intercalate "," (jsJoinList xs)
  | .obj _ => "[object Object]"

/-- Renderings of a list of join elements. -/
def jsJoinList : List JsonVal → List String
  | [] => []
  | x :: xs => jsJoinElem x :: jsJoinList xs

end

/-- String interpolation of a value in a template literal (`null` renders
as `"null"`, otherwise as in `join`). -/
def jsTemplStr : JsonVal → String
  | .null => "null"
  | v => jsJoinElem v

/-- The optional chain `t.k?.length`. -/
def jsOptLen (t : JsonVal) (k : String) : Except Unit (Option JsonVal) := do
  let r ← jsGet t k
  match r with
  | none => pure none
  | some .null => pure none
  | some w => pure (jsField w "length")

@[simp] theorem exceptBind_ok {α β : Type} (a : α) (f : α → Except Unit β) :
    (Except.ok a >>= f) = f a := rfl

@[simp] theorem exceptBind_error {α β : Type} (e : Unit) (f : α → Except Unit β) :
    ((Except.error e : Except Unit α) >>= f) = Except.error e := rfl

@[simp] theorem exceptPure_eq {α : Type} (a : α) :
    (pure a : Except Unit α) = Except.ok a := rfl

/-- A normalized entity `{ type, value, confidence }` as pushed by
`extractEntitiesFromResult`.  The TypeScript annotations promise
`string`/`number` fields but the runtime values are whatever the fallback
chains produce, so the fields are kept as `JsonVal`. -/
structure JsEntity where
  type : JsonVal
  value : JsonVal
  confidence : JsonVal

/-- Sequential effectful map, the order in which `Array.prototype.map` /
`forEach` visit elements (a thrown access error aborts the whole loop). -/
def mapE {α β : Type} (f : α → Except Unit β) : List α → Except Unit (List β)
  | [] => .ok []
  | a :: as => do
    let b ← f a
    let bs ← mapE f as
    pure (b :: bs)

/-- One segment of `text_segments`: `segment.text || segment`. -/
def segItem (seg : JsonVal) : Except Unit JsonVal := do
  let st ← jsGet seg "text"
  pure (if jsTruthy st then st.getD .null else seg)

/-- One region of `regions`: `region.text || region.value || ""`. -/
def regItem (rg : JsonVal) : Except Unit JsonVal := do
  let t ← jsGet rg "text"
  let v ← jsGet rg "value"
  pure (jsOrD t (jsOrD v (.str "")))

/-- Body of `extractTextFromResult` before its `catch`: the value the
`try` block returns, or `.error` when a property access throws. -/
def extractTextBody (result : JsonVal) : Except Unit JsonVal := do
  let preds ← jsGet result "predictions"
  let fromPreds : Option JsonVal ←
    if jsTruthy preds then do
      let len ← jsGetO preds "length"
      if jsNumPos len then do
        let pred ← jsIndex preds 0
        let et ← jsGetO pred "extracted_text"
        if jsTruthy et then pure (some (et.getD .null)) else do
        let ot ← jsGetO pred "ocr_text"
        if jsTruthy ot then pure (some (ot.getD .null)) else do
        let tx ← jsGetO pred "text"
        if jsTruthy tx then pure (some (tx.getD .null)) else do
        let sg ← jsGetO pred "text_segments"
        if jsTruthy sg && isArrayO sg then do
          let parts ← mapE segItem (arrElemsO sg)
          pure (some (.str (String.intercalate " " (parts.map jsJoinElem))))
        else do
        let rg ← jsGetO pred "regions"
        if jsTruthy rg && isArrayO rg then do
          let parts ← mapE regItem (arrElemsO rg)
          pure (some (.str (String.intercalate " " (parts.map jsJoinElem))))
        else pure none
      else pure none
    else pure none
  match fromPreds with
  | some v => pure v
  | none => do
    let tx ← jsGet result "text"
    if jsTruthy tx then pure (tx.getD .null) else do
    let oc ← jsGet result "ocr_result"
    if jsTruthy oc then pure (oc.getD .null) else pure (.str "No text extracted")

/-- `extractTextFromResult` of the route, `catch` included. -/
def extractTextFromResult (result : JsonVal) : JsonVal :=
  match extractTextBody result with
  | .ok v => v
  | .error _ => .str "Error extracting text"

/-- One element of `predictions[0].entities`. -/
def entItem (e : JsonVal) : Except Unit JsEntity := do
  let a ← jsGet e "type"
  let b ← jsGet e "label"
  let c ← jsGet e "class"
  let v ← jsGet e "value"
  let t ← jsGet e "text"
  let ct ← jsGet e "content"
  let cf ← jsGet e "confidence"
  let sc ← jsGet e "score"
  let pb ← jsGet e "probability"
  pure ⟨jsOrD a (jsOrD b (jsOrD c (.str "Unknown"))),
        jsOrD v (jsOrD t (jsOrD ct (.str ""))),
        jsOrD cf (jsOrD sc (jsOrD pb (.num 0)))⟩

/-- One element of `predictions[0].key_value_pairs`. -/
def kvItem (p : JsonVal) : Except Unit JsEntity := do
  let k ← jsGet p "key"
  let v ← jsGet p "value"
  let c ← jsGet p "confidence"
  pure ⟨jsOrD k (.str "Key-Value"), jsOrD v (.str ""), jsOrD c (.num 0)⟩

/-- One element of `predictions[0].tables` together with its index:
`{type: "Table", value: s!"Table (index+1) ((rows?.length || data?.length || 0) rows)",
confidence: table.confidence || 0}`. -/
def tabItem (p : Nat × JsonVal) : Except Unit JsEntity := do
  let rl ← jsOptLen p.2 "rows"
  let dl ← jsOptLen p.2 "data"
  let cf ← jsGet p.2 "confidence"
  pure ⟨.str "Table",
        .str ("Table " ++ jsTemplStr (.num ((p.1 + 1 : Nat) : ℚ)) ++ " (" ++
              jsTemplStr (jsOrD rl (jsOrD dl (.num 0))) ++ " rows)"),
        jsOrD cf (.num 0)⟩

/-- One element of `predictions[0].bounding_boxes` together with its index. -/
def boxItem (p : Nat × JsonVal) : Except Unit JsEntity := do
  let l ← jsGet p.2 "label"
  let c ← jsGet p.2 "class"
  let t ← jsGet p.2 "text"
  let v ← jsGet p.2 "value"
  let cf ← jsGet p.2 "confidence"
  let sc ← jsGet p.2 "score"
  pure ⟨jsOrD l (jsOrD c (.str "Detection")),
        jsOrD t (jsOrD v (.str ("Detection " ++ jsTemplStr (.num ((p.1 + 1 : Nat) : ℚ))))),
        jsOrD cf (jsOrD sc (.num 0))⟩

/-- Body of `extractEntitiesFromResult` before its `catch`. -/
def extractEntitiesBody (result : JsonVal) : Except Unit (List JsEntity) := do
  let preds ← jsGet result "predictions"
  if jsTruthy preds then do
    let len ← jsGetO preds "length"
    if jsNumPos len then do
      let pred ← jsIndex preds 0
      let es ← jsGetO pred "entities"
      let l1 ← if jsTruthy es && isArrayO es then mapE entItem (arrElemsO es) else pure []
      let kv ← jsGetO pred "key_value_pairs"
      let l2 ← if jsTruthy kv && isArrayO kv then mapE kvItem (arrElemsO kv) else pure []
      let tb ← jsGetO pred "tables"
      let l3 ← if jsTruthy tb && isArrayO tb then mapE tabItem (arrElemsO tb).enum else pure []
      let bb ← jsGetO pred "bounding_boxes"
      let l4 ← if jsTruthy bb && isArrayO bb then mapE boxItem (arrElemsO bb).enum else pure []
      pure (l1 ++ l2 ++ l3 ++ l4)
    else pure []
  else pure []

/-- `extractEntitiesFromResult` of the route, `catch` included
(a thrown access error yields the empty list). -/
def extractEntitiesFromResult (result : JsonVal) : List JsEntity :=
  match extractEntitiesBody result with
  | .ok es => es
  | .error _ => []

/-- One upstream HTTP response, as the route observes it: its status code,
its body as text (read by `response.text()` on failure) and as JSON
(read by `response.json()` on success). -/
structure UpstreamResp where
  status : Nat
  bodyText : String
  json : JsonVal

/-- The five-step authentication-format probing sequence of `POST`:
step 0 (`apikey` header) is always issued; each of steps 1–4
(`Authorization: Bearer`, `API-Key` header, alternate body with `apikey`
header, `apikey` query parameter) is issued exactly when the response
held after the previous step has status 401.  `resp k` is the response
the upstream service would give to step `k`.  Returns the response held
at the end together with the list of issued steps, in order. -/
def gatewayProbe (resp : Nat → UpstreamResp) : UpstreamResp × List Nat :=
  let r0 := resp 0
  let c0 : List Nat := [0]
  let r1 := if r0.status = 401 then resp 1 else r0
  let c1 := if r0.status = 401 then c0 ++ [1] else c0
  let r2 := if r1.status = 401 then resp 2 else r1
  let c2 := if r1.status = 401 then c1 ++ [2] else c1
  let r3 := if r2.status = 401 then resp 3 else r2
  let c3 := if r2.status = 401 then c2 ++ [3] else c2
  let r4 := if r3.status = 401 then resp 4 else r3
  let c4 := if r3.status = 401 then c3 ++ [4] else c3
  (r4, c4)

/-- `Response.ok`: status in the inclusive range 200–299. -/
def respOk (status : Nat) : Bool := 200 ≤ status && status ≤ 299

/-- The file part of the form data (`file.name`, `file.size` are all the
route reads besides the bytes, which only flow into the opaque request
bodies). -/
structure FilePayload where
  name : String
  size : Nat

/-- The success payload `processedResult` returned on a 2xx upstream
response. -/
structure ProcessedResult where
  data : JsonVal
  extractedText : JsonVal
  entities : List JsEntity
  fileName : String
  fileSize : Nat
  processedAt : String

/-- The JSON body of the route's reply: either `{ error }` or the
processed result. -/
inductive GatewayBody where
  | err (msg : String)
  | success (pr : ProcessedResult)

/-- The route's reply together with the list of upstream probe steps it
issued. -/
structure GatewayResult where
  status : Nat
  body : GatewayBody
  calls : List Nat

/-- The `POST` handler of `src/app/api/extract-document/route.ts`.
`file`/`apiKey` are the form fields (`none` = missing); `!apiKey` is also
true for the empty string.  `resp` gives the upstream response per probe
step (transport-level failures, which the code turns into a 500
"Network error occurred", are outside the claims and not modelled);
`now` is the timestamp `new Date().toISOString()`. -/
def gatewayPOST (file : Option FilePayload) (apiKey : Option String)
    (resp : Nat → UpstreamResp) (now : String) : GatewayResult :=
  match file with
  | none => ⟨400, .err "No file provided", []⟩
  | some f =>
    match apiKey with
    | none => ⟨400, .err "No API key provided", []⟩
    | some key =>
      if key = "" then ⟨400, .err "No API key provided", []⟩
      else
        let pr := gatewayProbe resp
        let fin := pr.1
        if !(respOk fin.status) then
          if fin.status = 401 then
            ⟨401, .err "Invalid API key or authentication failed. Please check your LandingAI API key.", pr.2⟩
          else if fin.status = 403 then
            ⟨403, .err "Access forbidden. Please check your API key permissions.", pr.2⟩
          else
            ⟨500, .err ("LandingAI API error (" ++ toString fin.status ++ "): " ++ fin.bodyText), pr.2⟩
        else
          ⟨200, .success ⟨fin.json, extractTextFromResult fin.json,
            extractEntitiesFromResult fin.json, f.name, f.size, now⟩, pr.2⟩

/-- Status of a client-side `ExtractionResult`. -/
inductive RStatus where
  | processing
  | completed
  | error
deriving DecidableEq

/-- The client-side `ExtractionResult` record; optional fields are absent
until the entry settles. -/
structure ExtractionResult where
  fileName : String
  status : RStatus
  data : Option JsonVal := none
  error : Option String := none
  extractedText : Option JsonVal := none
  entities : Option (List JsEntity) := none

/-- Rendering of a status in the exported JSON. -/
def statusText : RStatus → String
  | .processing => "processing"
  | .completed => "completed"
  | .error => "error"

/-- JSON form of a normalized entity. -/
def entityToJson (e : JsEntity) : JsonVal :=
  .obj [("type", e.type), ("value", e.value), ("confidence", e.confidence)]

/-- JSON form of an `ExtractionResult` (fields that are `undefined` are
omitted by `JSON.stringify`). -/
def resultToJson (r : ExtractionResult) : JsonVal :=
  .obj ([("fileName", .str r.fileName), ("status", .str (statusText r.status))]
    ++ (match r.data with | some d => [("data", d)] | none => [])
    ++ (match r.error with | some e => [("error", .str e)] | none => [])
    ++ (match r.extractedText with | some t => [("extractedText", t)] | none => [])
    ++ (match r.entities with | some es => [("entities", .arr (es.map entityToJson))] | none => []))

/-- The document built by `downloadResults`: the JSON array of exactly the
entries whose status is `completed` (serialization of this document to
text by `JSON.stringify(..., null, 2)` is not further modelled). -/
def downloadResults (results : List ExtractionResult) : JsonVal :=
  .arr ((results.filter fun r => decide (r.status = RStatus.completed)).map resultToJson)

/-- The outcome of one file's call to the route, as seen by `processFiles`:
either a parsed success body (`response.ok`) or the error message the
client stores. -/
inductive Outcome where
  | ok (data : JsonVal) (extractedText : JsonVal) (entities : List JsEntity)
  | fail (msg : String)

/-- Terminal status an outcome assigns. -/
def terminalStatus : Outcome → RStatus
  | .ok _ _ _ => .completed
  | .fail _ => .error

/-- The state update a settled call performs:
`prev.map((r, i) => i === index ? {...r, ...} : r)`. -/
def applyOutcome (index : Nat) (o : Outcome) (rs : List ExtractionResult) :
    List ExtractionResult :=
  rs.mapIdx fun i r =>
    if i = index then
      match o with
      | .ok d t e => { r with status := .completed, data := some d,
                              extractedText := some t, entities := some e }
      | .fail m => { r with status := .error, error := some m }
    else r

/-- The `initialResults` array of `processFiles`: every file starts in
`processing`. -/
def initialResults (names : List String) : List ExtractionResult :=
  names.map fun n => { fileName := n, status := .processing }

/-- A run of `processFiles` after dispatch: the settled calls' updates are
applied one at a time in some order (`order` lists the index of each
settling call; `oc i` is call `i`'s outcome). -/
def runUpdates (oc : Nat → Outcome) (order : List Nat)
    (rs : List ExtractionResult) : List ExtractionResult :=
  order.foldl (fun s i => applyOutcome i (oc i) s) rs

/-- Status of the entry at an index, when it exists. -/
def statusAt (rs : List ExtractionResult) (j : Nat) : Option RStatus :=
  (rs.get? j).map (·.status)

/-! ### Spec-side definitions

These follow the specification's wording, to be compared with the
source-side functions above. -/

/-- Spec wording for one segment of `text_segments`: the segment's own
`text` field, or the segment itself when it is already a string. -/
def specSegmentText : JsonVal → String
  | .obj sfs => match lookupField sfs "text" with
                | some (.str t) => t
                | _ => ""
  | .str t => t
  | _ => ""

/-- A segment of the shape the claim describes: an object with a
non-empty string `text`, or a plain string. -/
def segShape (seg : JsonVal) : Prop :=
  (∃ sfs t, seg = .obj sfs ∧ lookupField sfs "text" = some (.str t) ∧ t ≠ "") ∨
  ∃ t, seg = .str t

/-- A non-empty string read of a field, used in the spec wording of
region extraction. -/
def truthyStr : Option JsonVal → Option String
  | some (.str s) => if s = "" then none else some s
  | _ => none

/-- Spec wording for one region of `regions`: its `text` or its `value`
or empty. -/
def specRegionText : JsonVal → String
  | .obj rfs => ((truthyStr (lookupField rfs "text")).getD
                 ((truthyStr (lookupField rfs "value")).getD ""))
  | _ => ""

/-- A region of the shape the claim describes: an object whose `text` and
`value` fields, when present, are strings. -/
def regShape (rg : JsonVal) : Prop :=
  ∃ rfs, rg = .obj rfs ∧
    (lookupField rfs "text" = none ∨ ∃ s, lookupField rfs "text" = some (.str s)) ∧
    (lookupField rfs "value" = none ∨ ∃ s, lookupField rfs "value" = some (.str s))

/-- The amended per-entity mapping: each attribute takes the first truthy
candidate, with the output attribute's own field name (`type`, `value`,
`confidence`) tried before the alternatives the spec lists. -/
def entityRule (e : JsonVal) : JsEntity :=
  ⟨jsOrD (jsField e "type") (jsOrD (jsField e "label") (jsOrD (jsField e "class") (.str "Unknown"))),
   jsOrD (jsField e "value") (jsOrD (jsField e "text") (jsOrD (jsField e "content") (.str ""))),
   jsOrD (jsField e "confidence") (jsOrD (jsField e "score") (jsOrD (jsField e "probability") (.num 0)))⟩

/-- Spec wording for a table's row count: the length of `rows` or of
`data`, whichever is present. -/
def specRowCount (t : JsonVal) : Nat :=
  match t with
  | .obj tfs =>
    match lookupField tfs "rows" with
    | some (.arr rs) => rs.length
    | _ => match lookupField tfs "data" with
           | some (.arr ds) => ds.length
           | _ => 0
  | _ => 0

/-- Spec wording for the synthetic entity of the table at (0-based)
index `i`. -/
def claimTableEnt (i : Nat) (t : JsonVal) : JsEntity :=
  ⟨.str "Table",
   .str ("Table " ++ toString (i + 1) ++ " (" ++ toString (specRowCount t) ++ " rows)"),
   .num 0⟩

/-- A table of the shape the claim describes: `confidence` absent, and
either `rows` present as an array with `data` absent, or `rows` absent
with `data` present as an array. -/
def tabShape (t : JsonVal) : Prop :=
  ∃ tfs, t = .obj tfs ∧ lookupField tfs "confidence" = none ∧
    ((∃ rs, lookupField tfs "rows" = some (.arr rs) ∧ lookupField tfs "data" = none) ∨
     (lookupField tfs "rows" = none ∧ ∃ ds, lookupField tfs "data" = some (.arr ds)))

/-! ### Helper lemmas -/

theorem mapE_eq_ok_map {α β : Type} (f : α → Except Unit β) (g : α → β) :
    ∀ l : List α, (∀ a ∈ l, f a = .ok (g a)) → mapE f l = .ok (l.map g)
  | [], _ => rfl
  | a :: as, h => by
    have ha := h a (by simp)
    have hrest := mapE_eq_ok_map f g as (fun x hx => h x (by simp [hx]))
    simp [mapE, ha, hrest]

theorem getElem?_mapIdx {α β : Type} (f : Nat → α → β) (l : List α) (j : Nat) :
    (l.mapIdx f).get? j = (l.get? j).map (f j) := by
  simp only [List.mapIdx_eq_enum_map, List.get?_eq_getElem?, List.getElem?_map,
    List.getElem?_enum]
  cases l[j]? <;> simp [Function.uncurry]

theorem jsTemplStr_natCast (n : Nat) : jsTemplStr (.num (n : ℚ)) = toString n := by
  simp only [jsTemplStr, jsJoinElem, jsNumRepr, Rat.den_natCast, Rat.num_natCast,
    if_true]
  norm_num

theorem jsTemplStr_zero : jsTemplStr (.num 0) = "0" := by
  simp [jsTemplStr, jsJoinElem, jsNumRepr]
  rfl

theorem jsTemplStr_cast_add_one (i : Nat) :
    jsTemplStr (.num ((i : ℚ) + 1)) = toString (i + 1) := by
  rw [show ((i : ℚ) + 1) = ((i + 1 : ℕ) : ℚ) by push_cast; ring]
  exact jsTemplStr_natCast (i + 1)

theorem jsNumPos_natLen (n : Nat) :
    jsNumPos (some (.num ((n + 1 : Nat) : ℚ))) = true := by
  simp [jsNumPos]
  positivity

/-- C1: for every upstream behaviour (and any file/credential the route
accepts), the probe calls are exactly an initial run of the five steps:
step 0 always runs, step k+1 runs iff step k ran and returned exactly
401, a non-401 at step k leaves the issued calls at exactly steps 0..k,
and when every step returns 401 exactly 5 upstream calls are made. -/
theorem probe_steps_conditional (resp : Nat → UpstreamResp) :
    (∀ (f : FilePayload) (key : String) (now : String), key ≠ "" →
      (gatewayPOST (some f) (some key) resp now).calls = (gatewayProbe resp).2) ∧
    0 ∈ (gatewayProbe resp).2 ∧
    (∀ k, k < 4 → ((k + 1) ∈ (gatewayProbe resp).2 ↔
      (k ∈ (gatewayProbe resp).2 ∧ (resp k).status = 401))) ∧
    ((∀ k, k < 5 → (resp k).status = 401) → (gatewayProbe resp).2.length = 5) ∧
    (∀ k, k < 5 → k ∈ (gatewayProbe resp).2 → (resp k).status ≠ 401 →
      (gatewayProbe resp).2 = List.range (k + 1)) := by
  refine ⟨?_, ?_, ?_, ?_, ?_⟩
  · intro f key now hk
    simp only [gatewayPOST, if_neg hk]
    split_ifs <;> rfl
  · by_cases h0 : (resp 0).status = 401 <;>
    by_cases h1 : (resp 1).status = 401 <;>
    by_cases h2 : (resp 2).status = 401 <;>
    by_cases h3 : (resp 3).status = 401 <;>
    simp [gatewayProbe, h0, h1, h2, h3]
  · by_cases h0 : (resp 0).status = 401 <;>
    by_cases h1 : (resp 1).status = 401 <;>
    by_cases h2 : (resp 2).status = 401 <;>
    by_cases h3 : (resp 3).status = 401 <;>
    (intro k hk; interval_cases k <;> simp [gatewayProbe, h0, h1, h2, h3])
  · by_cases h0 : (resp 0).status = 401 <;>
    by_cases h1 : (resp 1).status = 401 <;>
    by_cases h2 : (resp 2).status = 401 <;>
    by_cases h3 : (resp 3).status = 401 <;>
    (intro hall;
     have e0 := hall 0 (by omega); have e1 := hall 1 (by omega);
     have e2 := hall 2 (by omega); have e3 := hall 3 (by omega);
     simp_all [gatewayProbe])
  · by_cases h0 : (resp 0).status = 401 <;>
    by_cases h1 : (resp 1).status = 401 <;>
    by_cases h2 : (resp 2).status = 401 <;>
    by_cases h3 : (resp 3).status = 401 <;>
    (intro k hk hmem hne; interval_cases k <;>
      simp_all [gatewayProbe, List.range_succ])

/-- Witness for C1: with a credential present and an upstream that
answers 401 to every probe format, all five steps are issued. -/
theorem probe_steps_conditional_witness :
    (gatewayProbe fun _ => ⟨401, "unauthorized", .null⟩).2.length = 5 :=
  (probe_steps_conditional fun _ => ⟨401, "unauthorized", .null⟩).2.2.2.1
    fun _ _ => rfl

/-- C2: once probing ends, the final upstream status maps to the client
reply: 401 gives a 401 invalid-credential error, 403 gives a 403
forbidden error, any other non-2xx gives a 500 error whose message
carries the upstream status and body text, and a 2xx returns the
normalized result with status 200. -/
theorem final_status_mapping (f : FilePayload) (key : String) (hk : key ≠ "")
    (resp : Nat → UpstreamResp) (now : String) :
    ((gatewayProbe resp).1.status = 401 →
      (gatewayPOST (some f) (some key) resp now).status = 401 ∧
      (gatewayPOST (some f) (some key) resp now).body =
        .err "Invalid API key or authentication failed. Please check your LandingAI API key.") ∧
    ((gatewayProbe resp).1.status = 403 →
      (gatewayPOST (some f) (some key) resp now).status = 403 ∧
      (gatewayPOST (some f) (some key) resp now).body =
        .err "Access forbidden. Please check your API key permissions.") ∧
    (respOk (gatewayProbe resp).1.status = false →
      (gatewayProbe resp).1.status ≠ 401 → (gatewayProbe resp).1.status ≠ 403 →
      (gatewayPOST (some f) (some key) resp now).status = 500 ∧
      (gatewayPOST (some f) (some key) resp now).body =
        .err ("LandingAI API error (" ++ toString (gatewayProbe resp).1.status ++ "): "
              ++ (gatewayProbe resp).1.bodyText)) ∧
    (respOk (gatewayProbe resp).1.status = true →
      (gatewayPOST (some f) (some key) resp now).status = 200 ∧
      (gatewayPOST (some f) (some key) resp now).body =
        .success ⟨(gatewayProbe resp).1.json,
          extractTextFromResult (gatewayProbe resp).1.json,
          extractEntitiesFromResult (gatewayProbe resp).1.json,
          f.name, f.size, now⟩) := by
  refine ⟨fun h => ?_, fun h => ?_, fun hok h1 h3 => ?_, fun hok => ?_⟩
  · constructor <;> simp [gatewayPOST, hk, h, respOk]
  · constructor <;> simp [gatewayPOST, hk, h, respOk]
  · constructor <;> simp [gatewayPOST, hk, hok, h1, h3]
  · constructor <;> simp [gatewayPOST, hk, hok]

/-- Witness for C2: an upstream rejecting every format with 401 yields the
invalid-credential reply; a 500 body is surfaced verbatim. -/
theorem final_status_mapping_witness :
    (gatewayPOST (some ⟨"doc.pdf", 10⟩) (some "k")
      (fun _ => ⟨401, "denied", .null⟩) "t").status = 401 ∧
    (gatewayPOST (some ⟨"doc.pdf", 10⟩) (some "k")
      (fun _ => ⟨401, "denied", .null⟩) "t").body =
      .err "Invalid API key or authentication failed. Please check your LandingAI API key." :=
  (final_status_mapping ⟨"doc.pdf", 10⟩ "k" (by decide)
    (fun _ => ⟨401, "denied", .null⟩) "t").1 rfl

/-- C7: a missing file, a missing credential, or an empty credential is
rejected with status 400 and an error body before any upstream probe
step is issued (the call list is empty). -/
theorem missing_input_rejected :
    (∀ (k : Option String) (resp : Nat → UpstreamResp) (now : String),
      gatewayPOST none k resp now = ⟨400, .err "No file provided", []⟩) ∧
    (∀ (f : FilePayload) (resp : Nat → UpstreamResp) (now : String),
      gatewayPOST (some f) none resp now = ⟨400, .err "No API key provided", []⟩) ∧
    (∀ (f : FilePayload) (resp : Nat → UpstreamResp) (now : String),
      gatewayPOST (some f) (some "") resp now = ⟨400, .err "No API key provided", []⟩) :=
  ⟨fun _ _ _ => rfl, fun _ _ _ => rfl, fun _ _ _ => rfl⟩

theorem snd_mem_of_mem_enumFrom {α : Type} :
    ∀ (l : List α) (n : Nat) (p : Nat × α), p ∈ l.enumFrom n → p.2 ∈ l
  | [], _, _, h => by simp [List.enumFrom] at h
  | a :: as, n, p, h => by
    rw [List.enumFrom_cons] at h
    rcases List.mem_cons.mp h with h | h
    · subst h; simp
    · exact List.mem_cons_of_mem _ (snd_mem_of_mem_enumFrom as (n + 1) p h)

theorem segItem_spec (seg : JsonVal) (h : segShape seg) :
    segItem seg = .ok (.str (specSegmentText seg)) := by
  rcases h with ⟨sfs, t, rfl, ht, hne⟩ | ⟨t, rfl⟩
  · simp [segItem, jsGet, jsField, ht, jsTruthy, hne, specSegmentText]
  · simp [segItem, jsGet, jsField, jsTruthy, specSegmentText]

theorem regItem_spec (rg : JsonVal) (h : regShape rg) :
    regItem rg = .ok (.str (specRegionText rg)) := by
  rcases h with ⟨rfs, rfl, htx, hvl⟩
  rcases htx with htx | ⟨s, htx⟩ <;> rcases hvl with hvl | ⟨v, hvl⟩ <;>
    simp [regItem, jsGet, jsField, htx, hvl, jsOrD, jsTruthy, specRegionText,
      truthyStr] <;>
    split_ifs <;> simp_all

theorem entItem_spec (e : JsonVal) (h : e ≠ JsonVal.null) :
    entItem e = .ok (entityRule e) := by
  cases e <;> simp_all [entItem, jsGet, entityRule]

theorem tabItem_spec (i : Nat) (t : JsonVal) (h : tabShape t) :
    tabItem (i, t) = .ok (claimTableEnt i t) := by
  rcases h with ⟨tfs, rfl, hcf, ⟨rs, hr, hd⟩ | ⟨hr, ds, hd⟩⟩
  · rcases Nat.eq_zero_or_pos rs.length with hz | hz
    · simp [tabItem, jsOptLen, jsGet, jsField, hr, hd, hcf, jsOrD, jsTruthy,
        claimTableEnt, specRowCount, jsTemplStr_zero, jsTemplStr_cast_add_one, hz]
      rfl
    · have hne : ((rs.length : ℚ)) ≠ 0 := by positivity
      simp [tabItem, jsOptLen, jsGet, jsField, hr, hd, hcf, jsOrD, jsTruthy,
        claimTableEnt, specRowCount, jsTemplStr_natCast, jsTemplStr_cast_add_one, hne]
  · rcases Nat.eq_zero_or_pos ds.length with hz | hz
    · simp [tabItem, jsOptLen, jsGet, jsField, hr, hd, hcf, jsOrD, jsTruthy,
        claimTableEnt, specRowCount, jsTemplStr_zero, jsTemplStr_cast_add_one, hz]
      rfl
    · have hne : ((ds.length : ℚ)) ≠ 0 := by positivity
      simp [tabItem, jsOptLen, jsGet, jsField, hr, hd, hcf, jsOrD, jsTruthy,
        claimTableEnt, specRowCount, jsTemplStr_natCast, jsTemplStr_cast_add_one, hne]

theorem jsNumPos_cast_add_one (n : Nat) :
    jsNumPos (some (.num ((n : ℚ) + 1))) = true := by
  simp [jsNumPos]
  positivity

theorem jsTruthy_none : jsTruthy none = false := rfl

theorem jsTruthy_arr (xs : List JsonVal) : jsTruthy (some (.arr xs)) = true := rfl

theorem jsTruthy_str_of_ne {s : String} (h : s ≠ "") :
    jsTruthy (some (.str s)) = true := by simp [jsTruthy, h]

/-- C3: with a non-empty `predictions` array whose first element is an
object, the extracted text is the first truthy match among
`extracted_text`, `ocr_text`, `text`, the space-join of `text_segments`
(each segment's own `text`, or the segment itself when it is a string),
and the space-join of `regions` (each region's `text` or `value` or
empty); with no `predictions`, it falls back to a top-level `text`, then
a top-level `ocr_result`, else `"No text extracted"`. -/
theorem text_extraction_precedence :
    (∀ (fs pfs : List (String × JsonVal)) (ps : List JsonVal) (s : String),
      lookupField fs "predictions" = some (.arr (.obj pfs :: ps)) →
      lookupField pfs "extracted_text" = some (.str s) → s ≠ "" →
      extractTextFromResult (.obj fs) = .str s) ∧
    (∀ (fs pfs : List (String × JsonVal)) (ps : List JsonVal) (s : String),
      lookupField fs "predictions" = some (.arr (.obj pfs :: ps)) →
      jsTruthy (lookupField pfs "extracted_text") = false →
      lookupField pfs "ocr_text" = some (.str s) → s ≠ "" →
      extractTextFromResult (.obj fs) = .str s) ∧
    (∀ (fs pfs : List (String × JsonVal)) (ps : List JsonVal) (s : String),
      lookupField fs "predictions" = some (.arr (.obj pfs :: ps)) →
      jsTruthy (lookupField pfs "extracted_text") = false →
      jsTruthy (lookupField pfs "ocr_text") = false →
      lookupField pfs "text" = some (.str s) → s ≠ "" →
      extractTextFromResult (.obj fs) = .str s) ∧
    (∀ (fs pfs : List (String × JsonVal)) (ps segs : List JsonVal),
      lookupField fs "predictions" = some (.arr (.obj pfs :: ps)) →
      jsTruthy (lookupField pfs "extracted_text") = false →
      jsTruthy (lookupField pfs "ocr_text") = false →
      jsTruthy (lookupField pfs "text") = false →
      lookupField pfs "text_segments" = some (.arr segs) →
      (∀ seg ∈ segs, segShape seg) →
      extractTextFromResult (.obj fs) =
        .str (String.intercalate " " (segs.map specSegmentText))) ∧
    (∀ (fs pfs : List (String × JsonVal)) (ps regs : List JsonVal),
      lookupField fs "predictions" = some (.arr (.obj pfs :: ps)) →
      jsTruthy (lookupField pfs "extracted_text") = false →
      jsTruthy (lookupField pfs "ocr_text") = false →
      jsTruthy (lookupField pfs "text") = false →
      lookupField pfs "text_segments" = none →
      lookupField pfs "regions" = some (.arr regs) →
      (∀ rg ∈ regs, regShape rg) →
      extractTextFromResult (.obj fs) =
        .str (String.intercalate " " (regs.map specRegionText))) ∧
    (∀ (fs : List (String × JsonVal)) (s : String),
      lookupField fs "predictions" = none →
      lookupField fs "text" = some (.str s) → s ≠ "" →
      extractTextFromResult (.obj fs) = .str s) ∧
    (∀ (fs : List (String × JsonVal)) (s : String),
      lookupField fs "predictions" = none →
      jsTruthy (lookupField fs "text") = false →
      lookupField fs "ocr_result" = some (.str s) → s ≠ "" →
      extractTextFromResult (.obj fs) = .str s) ∧
    (∀ fs : List (String × JsonVal),
      lookupField fs "predictions" = none →
      jsTruthy (lookupField fs "text") = false →
      jsTruthy (lookupField fs "ocr_result") = false →
      extractTextFromResult (.obj fs) = .str "No text extracted") := by
  refine ⟨?_, ?_, ?_, ?_, ?_, ?_, ?_, ?_⟩
  · intro fs pfs ps s hp he hs
    simp [extractTextFromResult, extractTextBody, jsGet, jsGetO, jsIndex, jsField,
      hp, he, jsTruthy_arr, jsTruthy_str_of_ne hs, jsNumPos_cast_add_one]
  · intro fs pfs ps s hp h1 he hs
    simp [extractTextFromResult, extractTextBody, jsGet, jsGetO, jsIndex, jsField,
      hp, h1, he, jsTruthy_arr, jsTruthy_str_of_ne hs, jsNumPos_cast_add_one]
  · intro fs pfs ps s hp h1 h2 he hs
    simp [extractTextFromResult, extractTextBody, jsGet, jsGetO, jsIndex, jsField,
      hp, h1, h2, he, jsTruthy_arr, jsTruthy_str_of_ne hs, jsNumPos_cast_add_one]
  · intro fs pfs ps segs hp h1 h2 h3 hseg hshape
    have hm : mapE segItem segs = .ok (segs.map fun seg => .str (specSegmentText seg)) :=
      mapE_eq_ok_map segItem _ segs fun seg hs => segItem_spec seg (hshape seg hs)
    simp [extractTextFromResult, extractTextBody, jsGet, jsGetO, jsIndex, jsField,
      hp, h1, h2, h3, hseg, hm, jsTruthy_arr, isArrayO, arrElemsO,
      jsNumPos_cast_add_one]
    exact congrArg (String.intercalate " ") (List.map_congr_left fun a ha => rfl)
  · intro fs pfs ps regs hp h1 h2 h3 h4 hreg hshape
    have hm : mapE regItem regs = .ok (regs.map fun rg => .str (specRegionText rg)) :=
      mapE_eq_ok_map regItem _ regs fun rg hs => regItem_spec rg (hshape rg hs)
    simp [extractTextFromResult, extractTextBody, jsGet, jsGetO, jsIndex, jsField,
      hp, h1, h2, h3, h4, hreg, hm, jsTruthy_arr, jsTruthy_none, isArrayO, arrElemsO,
      jsNumPos_cast_add_one]
    exact congrArg (String.intercalate " ") (List.map_congr_left fun a ha => rfl)
  · intro fs s hp ht hs
    simp [extractTextFromResult, extractTextBody, jsGet, jsField, hp, ht,
      jsTruthy_none, jsTruthy_str_of_ne hs]
  · intro fs s hp h1 ht hs
    simp [extractTextFromResult, extractTextBody, jsGet, jsField, hp, h1, ht,
      jsTruthy_none, jsTruthy_str_of_ne hs]
  · intro fs hp h1 h2
    simp [extractTextFromResult, extractTextBody, jsGet, jsField, hp, h1, h2,
      jsTruthy_none]

/-- Witness for C3: the spec's two examples, derived from the precedence
theorem at concrete payloads. -/
theorem text_extraction_precedence_witness :
    extractTextFromResult
      (.obj [("predictions", .arr [.obj [("extracted_text", .str "hello")]])]) =
      .str "hello" ∧
    extractTextFromResult
      (.obj [("predictions", .arr [.obj [("text_segments",
        .arr [.obj [("text", .str "a")], .obj [("text", .str "b")]])]])]) =
      .str "a b" := by
  constructor
  · exact text_extraction_precedence.1 _ _ _ _ rfl rfl (by decide)
  · have hshape : ∀ seg ∈ [JsonVal.obj [("text", JsonVal.str "a")],
        JsonVal.obj [("text", JsonVal.str "b")]], segShape seg := by
      intro seg hs
      rcases List.mem_cons.mp hs with rfl | hs
      · exact Or.inl ⟨_, "a", rfl, rfl, by decide⟩
      rcases List.mem_cons.mp hs with rfl | hs
      · exact Or.inl ⟨_, "b", rfl, rfl, by decide⟩
      · simp at hs
    exact (text_extraction_precedence.2.2.2.1
      [("predictions", .arr [.obj [("text_segments",
        .arr [.obj [("text", .str "a")], .obj [("text", .str "b")]])]])]
      [("text_segments", .arr [.obj [("text", .str "a")], .obj [("text", .str "b")]])]
      [] [.obj [("text", .str "a")], .obj [("text", .str "b")]]
      rfl rfl rfl rfl rfl hshape).trans rfl

/-- C10: with `predictions` present and non-empty but its first element
carrying none of the five recognized text fields, extraction still falls
back to the top-level `text`, then `ocr_result`, then
`"No text extracted"`. -/
theorem fallback_with_predictions :
    (∀ (fs pfs : List (String × JsonVal)) (ps : List JsonVal) (s : String),
      lookupField fs "predictions" = some (.arr (.obj pfs :: ps)) →
      lookupField pfs "extracted_text" = none →
      lookupField pfs "ocr_text" = none →
      lookupField pfs "text" = none →
      lookupField pfs "text_segments" = none →
      lookupField pfs "regions" = none →
      lookupField fs "text" = some (.str s) → s ≠ "" →
      extractTextFromResult (.obj fs) = .str s) ∧
    (∀ (fs pfs : List (String × JsonVal)) (ps : List JsonVal) (s : String),
      lookupField fs "predictions" = some (.arr (.obj pfs :: ps)) →
      lookupField pfs "extracted_text" = none →
      lookupField pfs "ocr_text" = none →
      lookupField pfs "text" = none →
      lookupField pfs "text_segments" = none →
      lookupField pfs "regions" = none →
      jsTruthy (lookupField fs "text") = false →
      lookupField fs "ocr_result" = some (.str s) → s ≠ "" →
      extractTextFromResult (.obj fs) = .str s) ∧
    (∀ (fs pfs : List (String × JsonVal)) (ps : List JsonVal),
      lookupField fs "predictions" = some (.arr (.obj pfs :: ps)) →
      lookupField pfs "extracted_text" = none →
      lookupField pfs "ocr_text" = none →
      lookupField pfs "text" = none →
      lookupField pfs "text_segments" = none →
      lookupField pfs "regions" = none →
      jsTruthy (lookupField fs "text") = false →
      jsTruthy (lookupField fs "ocr_result") = false →
      extractTextFromResult (.obj fs) = .str "No text extracted") := by
  refine ⟨?_, ?_, ?_⟩
  · intro fs pfs ps s hp h1 h2 h3 h4 h5 ht hs
    simp [extractTextFromResult, extractTextBody, jsGet, jsGetO, jsIndex, jsField,
      hp, h1, h2, h3, h4, h5, ht, jsTruthy_arr, jsTruthy_none,
      jsTruthy_str_of_ne hs, jsNumPos_cast_add_one]
  · intro fs pfs ps s hp h1 h2 h3 h4 h5 ht hoc hs
    simp [extractTextFromResult, extractTextBody, jsGet, jsGetO, jsIndex, jsField,
      hp, h1, h2, h3, h4, h5, ht, hoc, jsTruthy_arr, jsTruthy_none,
      jsTruthy_str_of_ne hs, jsNumPos_cast_add_one]
  · intro fs pfs ps hp h1 h2 h3 h4 h5 ht hoc
    simp [extractTextFromResult, extractTextBody, jsGet, jsGetO, jsIndex, jsField,
      hp, h1, h2, h3, h4, h5, ht, hoc, jsTruthy_arr, jsTruthy_none,
      jsNumPos_cast_add_one]

/-- Witness for C10: an empty first prediction does not block the
top-level fallbacks. -/
theorem fallback_with_predictions_witness :
    extractTextFromResult
      (.obj [("predictions", .arr [.obj []]), ("ocr_result", .str "scanned")]) =
      .str "scanned" ∧
    extractTextFromResult (.obj [("predictions", .arr [.obj []])]) =
      .str "No text extracted" := by
  constructor
  · exact fallback_with_predictions.2.1 _ _ _ _ rfl rfl rfl rfl rfl rfl rfl rfl
      (by decide)
  · exact fallback_with_predictions.2.2 _ _ _ rfl rfl rfl rfl rfl rfl rfl rfl

/-- The concrete payload refuting C4 as stated: the entity carries a
`type` field alongside `label`. -/
def entityTypeCexPayload : JsonVal :=
  .obj [("predictions", .arr [.obj [("entities", .arr [.obj
    [("type", .str "ID"), ("label", .str "NAME"), ("text", .str "Jane"),
     ("score", .num (mkRat 9 10))]])]])]

/-- C4 counterexample: on an entity with both `type` and `label`, the code
emits the `type` field (`"ID"`), not the first present of
`label`/`class` (`"NAME"`) as the claim states. -/
theorem entity_type_field_cex :
    extractEntitiesFromResult entityTypeCexPayload =
      [⟨.str "ID", .str "Jane", .num (mkRat 9 10)⟩] ∧
    JsonVal.str "ID" ≠ JsonVal.str "NAME" := by
  constructor
  · rfl
  · intro h
    injection h with h2
    exact absurd h2 (by decide)

/-- C4 amended: each element of `predictions[0].entities` maps to the
entity whose `type` is the first truthy of the input's `type`, `label`,
`class`, else `"Unknown"`; whose `value` is the first truthy of `value`,
`text`, `content`, else `""`; and whose `confidence` is the first truthy
of `confidence`, `score`, `probability`, else `0` — the output
attribute's own field name is consulted before the alternatives the
spec lists. -/
theorem entity_mapping_amended :
    ∀ (fs pfs : List (String × JsonVal)) (ps es : List JsonVal),
      lookupField fs "predictions" = some (.arr (.obj pfs :: ps)) →
      lookupField pfs "entities" = some (.arr es) →
      lookupField pfs "key_value_pairs" = none →
      lookupField pfs "tables" = none →
      lookupField pfs "bounding_boxes" = none →
      (∀ e ∈ es, e ≠ JsonVal.null) →
      extractEntitiesFromResult (.obj fs) = es.map entityRule := by
  intro fs pfs ps es hp hes h1 h2 h3 hnn
  have hm : mapE entItem es = .ok (es.map entityRule) :=
    mapE_eq_ok_map entItem entityRule es fun e he => entItem_spec e (hnn e he)
  simp [extractEntitiesFromResult, extractEntitiesBody, jsGet, jsGetO, jsIndex,
    jsField, hp, hes, h1, h2, h3, hm, jsTruthy_arr, jsTruthy_none, isArrayO,
    arrElemsO, jsNumPos_cast_add_one]

/-- Witness for C4 amended: the claim's own example, which carries none of
the output-named fields, maps exactly as the spec says. -/
theorem entity_mapping_amended_witness :
    extractEntitiesFromResult
      (.obj [("predictions", .arr [.obj [("entities", .arr [.obj
        [("label", .str "NAME"), ("text", .str "Jane"),
         ("score", .num (mkRat 9 10))]])]])]) =
      [⟨.str "NAME", .str "Jane", .num (mkRat 9 10)⟩] := by
  have hnn : ∀ e ∈ [JsonVal.obj [("label", JsonVal.str "NAME"),
      ("text", JsonVal.str "Jane"), ("score", JsonVal.num (mkRat 9 10))]],
      e ≠ JsonVal.null := by
    intro e he
    rcases List.mem_cons.mp he with rfl | he
    · intro h; cases h
    · simp at he
  exact (entity_mapping_amended
    [("predictions", .arr [.obj [("entities", .arr [.obj
      [("label", .str "NAME"), ("text", .str "Jane"),
       ("score", .num (mkRat 9 10))]])]])]
    [("entities", .arr [.obj [("label", .str "NAME"), ("text", .str "Jane"),
      ("score", .num (mkRat 9 10))]])]
    [] [.obj [("label", .str "NAME"), ("text", .str "Jane"),
      ("score", .num (mkRat 9 10))]]
    rfl rfl rfl rfl rfl hnn).trans rfl

/-- C5: each element of `predictions[0].tables` yields exactly one
synthetic entity `{type: "Table", value: "Table (1-based index)
((row count) rows)", confidence: 0 when absent}`, the row count taken
from `rows` (when present) or from `data`. -/
theorem table_entities :
    ∀ (fs pfs : List (String × JsonVal)) (ps ts : List JsonVal),
      lookupField fs "predictions" = some (.arr (.obj pfs :: ps)) →
      lookupField pfs "entities" = none →
      lookupField pfs "key_value_pairs" = none →
      lookupField pfs "bounding_boxes" = none →
      lookupField pfs "tables" = some (.arr ts) →
      (∀ t ∈ ts, tabShape t) →
      extractEntitiesFromResult (.obj fs) =
        ts.enum.map fun p => claimTableEnt p.1 p.2 := by
  intro fs pfs ps ts hp h1 h2 h3 hts hshape
  have hm : mapE tabItem ts.enum =
      .ok (ts.enum.map fun p => claimTableEnt p.1 p.2) :=
    mapE_eq_ok_map tabItem (fun p => claimTableEnt p.1 p.2) ts.enum fun p hpm => by
      have ht := hshape p.2 (snd_mem_of_mem_enumFrom ts 0 p hpm)
      have := tabItem_spec p.1 p.2 ht
      simpa using this
  simp [extractEntitiesFromResult, extractEntitiesBody, jsGet, jsGetO, jsIndex,
    jsField, hp, hts, h1, h2, h3, hm, jsTruthy_arr, jsTruthy_none, isArrayO,
    arrElemsO, jsNumPos_cast_add_one]

/-- Witness for C5: the spec's example, one table with three rows. -/
theorem table_entities_witness :
    extractEntitiesFromResult
      (.obj [("predictions", .arr [.obj [("tables", .arr [.obj
        [("rows", .arr [.num 1, .num 2, .num 3])]])]])]) =
      [⟨.str "Table", .str "Table 1 (3 rows)", .num 0⟩] := by
  have hshape : ∀ t ∈ [JsonVal.obj [("rows",
      JsonVal.arr [JsonVal.num 1, JsonVal.num 2, JsonVal.num 3])]], tabShape t := by
    intro t ht
    rcases List.mem_cons.mp ht with rfl | ht
    · exact ⟨_, rfl, rfl, Or.inl ⟨[JsonVal.num 1, JsonVal.num 2, JsonVal.num 3],
        rfl, rfl⟩⟩
    · simp at ht
  exact (table_entities
    [("predictions", .arr [.obj [("tables", .arr [.obj
      [("rows", .arr [.num 1, .num 2, .num 3])]])]])]
    [("tables", .arr [.obj [("rows", .arr [.num 1, .num 2, .num 3])]])]
    [] [.obj [("rows", .arr [.num 1, .num 2, .num 3])]]
    rfl rfl rfl rfl rfl hshape).trans rfl

/-- Whether a JSON value is a string. -/
def JsonVal.isString : JsonVal → Bool
  | .str _ => true
  | _ => false

/-- C6 counterexample: for the 2xx payload
`{"predictions":[{"text": 5}]}` the code returns the number `5` as the
"extracted text", so text extraction does not always return a string. -/
theorem text_not_string_cex :
    extractTextFromResult (.obj [("predictions", .arr [.obj [("text", .num 5)]])]) =
      .num 5 ∧
    (extractTextFromResult
      (.obj [("predictions", .arr [.obj [("text", .num 5)]])])).isString = false :=
  ⟨rfl, rfl⟩

/-- C6 amended: normalization never throws — a field-access failure is
caught and yields `"Error extracting text"` (text) and `[]` (entities);
when no field matches, text falls back to `"No text extracted"` and
entities to `[]`; and every 2xx upstream payload, of any shape
whatsoever, is reported as a 200 success, never as an error.  (Text
extraction returns the matched field's value as-is, which is a string
whenever that upstream field is a string and on every fallback path.) -/
theorem normalization_total_amended :
    (∀ fs : List (String × JsonVal),
      lookupField fs "predictions" = none →
      lookupField fs "text" = none →
      lookupField fs "ocr_result" = none →
      extractTextFromResult (.obj fs) = .str "No text extracted" ∧
      extractEntitiesFromResult (.obj fs) = []) ∧
    (extractTextFromResult .null = .str "Error extracting text" ∧
      extractEntitiesFromResult .null = []) ∧
    (∀ (f : FilePayload) (key : String), key ≠ "" →
      ∀ (resp : Nat → UpstreamResp) (now : String),
      respOk (gatewayProbe resp).1.status = true →
      (gatewayPOST (some f) (some key) resp now).status = 200 ∧
      ∃ pr, (gatewayPOST (some f) (some key) resp now).body = .success pr) := by
  refine ⟨?_, ⟨rfl, rfl⟩, ?_⟩
  · intro fs hp ht hoc
    constructor
    · simp [extractTextFromResult, extractTextBody, jsGet, jsField, hp, ht, hoc,
        jsTruthy_none]
    · simp [extractEntitiesFromResult, extractEntitiesBody, jsGet, jsField, hp,
        jsTruthy_none]
  · intro f key hk resp now hok
    constructor
    · simp [gatewayPOST, hk, hok]
    · exact ⟨⟨(gatewayProbe resp).1.json,
        extractTextFromResult (gatewayProbe resp).1.json,
        extractEntitiesFromResult (gatewayProbe resp).1.json,
        f.name, f.size, now⟩, by simp [gatewayPOST, hk, hok]⟩

/-- Witness for C6 amended: a payload with no recognized fields at all
still completes with the safe fallbacks, and a 2xx upstream with a
malformed (null) payload still yields a 200 success. -/
theorem normalization_total_amended_witness :
    extractTextFromResult (.obj [("unexpected", .num 1)]) =
      .str "No text extracted" ∧
    extractEntitiesFromResult (.obj [("unexpected", .num 1)]) = [] ∧
    (gatewayPOST (some ⟨"f.pdf", 3⟩) (some "k")
      (fun _ => ⟨200, "", .null⟩) "t").status = 200 := by
  refine ⟨?_, ?_, ?_⟩
  · exact (normalization_total_amended.1 [("unexpected", .num 1)] rfl rfl rfl).1
  · exact (normalization_total_amended.1 [("unexpected", .num 1)] rfl rfl rfl).2
  · exact (normalization_total_amended.2.2 ⟨"f.pdf", 3⟩ "k" (by decide)
      (fun _ => ⟨200, "", .null⟩) "t" rfl).1

/-- C8: the export serializes exactly the `completed` entries — removing
an `error` or `processing` entry leaves the document unchanged, an
all-`completed` list is exported entry for entry, and with zero
`completed` entries the document is the empty JSON array. -/
theorem export_completed_only :
    (∀ (rs1 rs2 : List ExtractionResult) (r : ExtractionResult),
      r.status = RStatus.error ∨ r.status = RStatus.processing →
      downloadResults (rs1 ++ r :: rs2) = downloadResults (rs1 ++ rs2)) ∧
    (∀ rs : List ExtractionResult, (∀ r ∈ rs, r.status = RStatus.completed) →
      downloadResults rs = .arr (rs.map resultToJson)) ∧
    (∀ rs : List ExtractionResult, (∀ r ∈ rs, r.status ≠ RStatus.completed) →
      downloadResults rs = .arr []) := by
  refine ⟨?_, ?_, ?_⟩
  · intro rs1 rs2 r hr
    have hne : r.status ≠ RStatus.completed := by
      rcases hr with h | h <;> simp [h]
    simp [downloadResults, List.filter_append, List.filter_cons, hne]
  · intro rs h
    have : rs.filter (fun r => decide (r.status = RStatus.completed)) = rs :=
      List.filter_eq_self.mpr fun r hr => by simp [h r hr]
    simp [downloadResults, this]
  · intro rs h
    have : rs.filter (fun r => decide (r.status = RStatus.completed)) = [] :=
      List.filter_eq_nil_iff.mpr fun r hr => by simp [h r hr]
    simp [downloadResults, this]

/-- Witness for C8: a list with one error entry and one still-processing
entry exports the empty array document. -/
theorem export_completed_only_witness :
    downloadResults [⟨"a", RStatus.error, none, some "boom", none, none⟩,
      ⟨"b", RStatus.processing, none, none, none, none⟩] = .arr [] := by
  apply export_completed_only.2.2
  intro r hr
  rcases List.mem_cons.mp hr with rfl | hr
  · decide
  rcases List.mem_cons.mp hr with rfl | hr
  · decide
  · simp at hr

theorem applyOutcome_length (i : Nat) (o : Outcome) (rs : List ExtractionResult) :
    (applyOutcome i o rs).length = rs.length := by
  simp [applyOutcome]

theorem applyOutcome_get?_ne (i : Nat) (o : Outcome) (rs : List ExtractionResult)
    (j : Nat) (h : j ≠ i) : (applyOutcome i o rs).get? j = rs.get? j := by
  rw [applyOutcome, getElem?_mapIdx]
  cases rs.get? j <;> simp [h]

theorem applyOutcome_status_self (i : Nat) (o : Outcome)
    (rs : List ExtractionResult) (h : i < rs.length) :
    statusAt (applyOutcome i o rs) i = some (terminalStatus o) := by
  rw [statusAt, applyOutcome, getElem?_mapIdx]
  rw [List.get?_eq_get h]
  cases o <;> simp [terminalStatus]

theorem applyOutcome_statusAt_ne (i : Nat) (o : Outcome)
    (rs : List ExtractionResult) (j : Nat) (h : j ≠ i) :
    statusAt (applyOutcome i o rs) j = statusAt rs j := by
  rw [statusAt, statusAt, applyOutcome_get?_ne i o rs j h]

theorem runStatus (oc : Nat → Outcome) :
    ∀ (order : List Nat) (rs : List ExtractionResult) (j : Nat), j < rs.length →
      statusAt (runUpdates oc order rs) j =
        if j ∈ order then some (terminalStatus (oc j)) else statusAt rs j
  | [], rs, j, hj => by simp [runUpdates]
  | i :: rest, rs, j, hj => by
    have hlen : j < (applyOutcome i (oc i) rs).length := by
      rw [applyOutcome_length]; exact hj
    have ih := runStatus oc rest (applyOutcome i (oc i) rs) j hlen
    have hstep : runUpdates oc (i :: rest) rs =
        runUpdates oc rest (applyOutcome i (oc i) rs) := rfl
    rw [hstep, ih]
    by_cases hji : j = i
    · subst hji
      have hs := applyOutcome_status_self j (oc j) rs hj
      by_cases hjr : j ∈ rest <;> simp [hjr, hs, List.mem_cons]
    · have hs := applyOutcome_statusAt_ne i (oc i) rs j hji
      by_cases hjr : j ∈ rest <;> simp [hjr, hs, List.mem_cons, hji]

theorem statusAt_initial (names : List String) (j : Nat) (hj : j < names.length) :
    statusAt (initialResults names) j = some RStatus.processing := by
  rw [statusAt, initialResults, List.get?_map, List.get?_eq_get hj]
  rfl

/-- C9: a settled call's update replaces only the entry at its own index
(every sibling's entry is untouched), and along any order of settling
calls each entry's status is monotonic: it stays `processing` until its
own call settles, then switches once to that call's terminal status
(`completed` or `error`) and never changes again. -/
theorem update_isolation_monotonic :
    (∀ (i : Nat) (o : Outcome) (rs : List ExtractionResult) (j : Nat), j ≠ i →
      (applyOutcome i o rs).get? j = rs.get? j) ∧
    (∀ o : Outcome, terminalStatus o = RStatus.completed ∨
      terminalStatus o = RStatus.error) ∧
    (∀ (oc : Nat → Outcome) (order : List Nat) (names : List String) (j : Nat),
      j < names.length →
      statusAt (runUpdates oc order (initialResults names)) j =
        if j ∈ order then some (terminalStatus (oc j))
        else some RStatus.processing) ∧
    (∀ (oc : Nat → Outcome) (order : List Nat) (names : List String)
      (j k k' : Nat), j < names.length → k ≤ k' →
      statusAt (runUpdates oc (order.take k) (initialResults names)) j ≠
        some RStatus.processing →
      statusAt (runUpdates oc (order.take k') (initialResults names)) j =
        statusAt (runUpdates oc (order.take k) (initialResults names)) j) := by
  refine ⟨applyOutcome_get?_ne, ?_, ?_, ?_⟩
  · intro o; cases o <;> simp [terminalStatus]
  · intro oc order names j hj
    have hlen : j < (initialResults names).length := by
      simpa [initialResults] using hj
    rw [runStatus oc order (initialResults names) j hlen,
      statusAt_initial names j hj]
  · intro oc order names j k k' hj hk hne
    have hlen : j < (initialResults names).length := by
      simpa [initialResults] using hj
    have hck := runStatus oc (order.take k) (initialResults names) j hlen
    have hck' := runStatus oc (order.take k') (initialResults names) j hlen
    have hsub : order.take k ⊆ order.take k' := by
      intro x hx
      have hxx : x ∈ (order.take k').take k := by
        rw [List.take_take, Nat.min_eq_left hk]; exact hx
      exact List.take_subset _ _ hxx
    by_cases hmem : j ∈ order.take k
    · rw [hck, hck', if_pos hmem, if_pos (hsub hmem)]
    · exfalso
      apply hne
      rw [hck, if_neg hmem, statusAt_initial names j hj]

/-- Witness for C9: with two files and one settled failing call at index
0, entry 0 is `error` and entry 1 is still `processing`. -/
theorem update_isolation_monotonic_witness :
    statusAt (runUpdates (fun _ => Outcome.fail "boom") [0]
      (initialResults ["a", "b"])) 0 = some RStatus.error ∧
    statusAt (runUpdates (fun _ => Outcome.fail "boom") [0]
      (initialResults ["a", "b"])) 1 = some RStatus.processing := by
  constructor
  · have := update_isolation_monotonic.2.2.1 (fun _ => Outcome.fail "boom")
      [0] ["a", "b"] 0 (by decide)
    simpa [terminalStatus] using this
  · have := update_isolation_monotonic.2.2.1 (fun _ => Outcome.fail "boom")
      [0] ["a", "b"] 1 (by decide)
    simpa using this
